import Mathlib

/-!
Shallow embedding of `src/static/js/charts.js` — the browser-resident telemetry
client of the dashboard.  JavaScript numbers are modelled as rationals (`ℚ`),
with `Option ℚ` standing for a JS number that may be `NaN` (`none` = NaN).
The relevant JS value domain for the fields of a fetched JSON frame is
modelled by `JSVal`: `undef` (missing key), `null`, `nan` (unreachable from
`JSON.parse` but part of the number type), a finite number, and `obj` (a plain
JSON object, whose `Number(·)` coercion is always NaN).
-/

namespace CopilotDash

/-- Model of the JS scalar values the dashboard code manipulates.
`obj` stands for a plain (JSON-derived) object: `ToNumber` of such an object
is always NaN (via `"[object Object]"`). -/
inductive JSVal where
  | undef : JSVal
  | null : JSVal
  | nan : JSVal
  | num : ℚ → JSVal
  | obj : JSVal
deriving DecidableEq

/-- JS loose equality with `null` (`d == null`): true exactly for
`null` and `undefined`. -/
def JSVal.isNullish : JSVal → Bool
  | .undef => true
  | .null => true
  | _ => false

/-- Model of `ToNumber` as applied by JS relational operators (`>`, `>=`):
`undefined` → NaN, `null` → 0, a plain object → NaN. `none` models NaN. -/
def JSVal.toNumber : JSVal → Option ℚ
  | .undef => none
  | .null => some 0
  | .nan => none
  | .num q => some q
  | .obj => none

/-- Model of `Number(v ?? 0)` — the ingestion coercion used by `tick` (lines 119,
124–129 of charts.js): nullish values are replaced by `0` before the
`Number` conversion, so both `undefined` and `null` become `0`; a plain
object becomes NaN. -/
def ingestNum : JSVal → Option ℚ
  | .undef => some 0
  | .null => some 0
  | .nan => none
  | .num q => some q
  | .obj => none

/-- JS `x >= c` on a possibly-NaN number `x` and a numeric literal `c`:
any comparison with NaN is false. -/
def jsGE (v : Option ℚ) (c : ℚ) : Bool :=
  match v with
  | some q => decide (c ≤ q)
  | none => false

/-- JS `x > c` on a possibly-NaN number `x`: any comparison with NaN is false. -/
def jsGT (v : Option ℚ) (c : ℚ) : Bool :=
  match v with
  | some q => decide (c < q)
  | none => false

/-! ### Decimal rendering (model of `Number.prototype.toFixed` / `String(n)`) -/

/-- The decimal digit character for `n` (defined for `n ≤ 9`; larger
arguments are never produced by the digit extraction below). -/
def digitCh (n : ℕ) : Char :=
  if n = 0 then '0' else if n = 1 then '1' else if n = 2 then '2'
  else if n = 3 then '3' else if n = 4 then '4' else if n = 5 then '5'
  else if n = 6 then '6' else if n = 7 then '7' else if n = 8 then '8' else '9'

/-- Little-endian decimal digits of `n`, with `fuel` bounding the recursion
depth (structural recursion so that the kernel can evaluate it). -/
def digitsAux : ℕ → ℕ → List Char
  | 0, _ => []
  | f + 1, n => if n = 0 then [] else digitCh (n % 10) :: digitsAux f (n / 10)

/-- Little-endian decimal digits of `n` (`fuel = n` always suffices). -/
def natDigitsRev (n : ℕ) : List Char := digitsAux n n

/-- Big-endian decimal representation of a natural number, as JS renders
nonnegative integers (`String(n)`, and the integer part of `toFixed`). -/
def natRepr (n : ℕ) : List Char :=
  if n = 0 then ['0'] else (natDigitsRev n).reverse

/-- Rendering `String(n)` for a nonnegative integer `n`. -/
def natStr (n : ℕ) : String := String.mk (natRepr n)

/-- Model of `Number.prototype.toFixed` on a finite (rational) value:
the sign is extracted first, then the absolute value is scaled by `10^d`
and rounded to the nearest integer, ties picking the larger integer
(`⌊x·10^d + 1/2⌋`), exactly as the ECMAScript specification states. -/
def toFixed (q : ℚ) (d : ℕ) : String :=
  let neg := decide (q < 0)
  let n : ℕ := (⌊|q| * (10 : ℚ) ^ d + 1 / 2⌋).toNat
  let ip := n / 10 ^ d
  let fp := n % 10 ^ d
  let fracDigits := List.replicate (d - (natDigitsRev fp).length) '0' ++ (natDigitsRev fp).reverse
  let core := if d = 0 then natRepr ip else natRepr ip ++ '.' :: fracDigits
  String.mk (if neg then '-' :: core else core)

/-- Model of `fmt(v, d)` of charts.js (line 24):
`(v===null||v===undefined||Number.isNaN(v)) ? "--" : Number(v).toFixed(d)`.
For a plain object `v`, `Number.isNaN(v)` is false and `Number(v)` is NaN,
whose `toFixed` is the string `"NaN"`. -/
def fmt (v : JSVal) (d : ℕ) : String :=
  match v with
  | .null => "--"
  | .undef => "--"
  | .nan => "--"
  | .num q => toFixed q d
  | .obj => "NaN"

/-- Number of decimal places displayed by a rendered numeric string: the
length of the maximal run of characters after the last `'.'`, or `0` when
no `'.'` occurs. -/
def decCount (s : String) : ℕ :=
  if '.' ∈ s.data then (s.data.reverse.takeWhile (fun c => c != '.')).length else 0

/-! ### HistoryStore (module-level arrays of charts.js, lines 2–23) -/

/-- Constant `HISTORY_MAX` of charts.js (line 3). -/
def HISTORY_MAX : ℕ := 30

/-- Model of `pushLimited(arr, v, max)` of charts.js (lines 18–23): push `v`, then
`splice(0, arr.length - max)` (drop from the front) when over `max`. -/
def pushLimited {α : Type _} (arr : List α) (v : α) (max : ℕ) : List α :=
  let a := arr ++ [v]
  if max < a.length then a.drop (a.length - max) else a

/-! ### Telemetry frames (the JSON value returned by `GET /sensor_data`) -/

/-- The `sensors` object of a frame; each field may hold any JS value
(missing key = `undef`). -/
structure RawSensors where
  temperature_c : JSVal
  pressure_bar : JSVal
  load_pct : JSVal
  throughput : JSVal
  vibration : JSVal
  humidity : JSVal
deriving DecidableEq

/-- The empty object `{}` substituted by `data.sensors || {}` (line 118):
every field access on it yields `undefined`. -/
def RawSensors.empty : RawSensors :=
  ⟨.undef, .undef, .undef, .undef, .undef, .undef⟩

/-- The `stress` object of a frame. -/
structure RawStress where
  active : Bool
  seconds_left : ℕ
deriving DecidableEq

/-- The `system_state` field: absent, `null`, or a string. -/
inductive StrVal where
  | undef : StrVal
  | null : StrVal
  | str : String → StrVal
deriving DecidableEq

/-- Fallback `v || "RUNNING"` (line 144): a string is falsy exactly when empty;
absent/null are falsy. -/
def StrVal.orRunning : StrVal → String
  | .str s => if s = "" then "RUNNING" else s
  | _ => "RUNNING"

/-- A parsed `/sensor_data` response (`data` in `tick`).  `sensors` and
`stress` are `none` when the field is absent or `null` (both falsy, handled
by `||` in the source). -/
structure RawFrame where
  sensors : Option RawSensors
  risk : JSVal
  distance_m : JSVal
  system_state : StrVal
  stress : Option RawStress
deriving DecidableEq

/-- Default `data.sensors || {}` (line 118). -/
def RawFrame.sensorsD (f : RawFrame) : RawSensors := f.sensors.getD RawSensors.empty

/-- Default `data.stress || {active:false, seconds_left:0}` (line 151). -/
def RawFrame.stressD (f : RawFrame) : RawStress := f.stress.getD ⟨false, 0⟩

/-! ### HistoryStore state (module-level arrays, lines 6–15) -/

/-- The 8 rolling sequences: `labels`, the six `sensorsHist` channels and
`riskHist`.  Elements of the numeric sequences are JS numbers
(`none` = NaN). -/
structure HistoryStore where
  labels : List String
  temperature_c : List (Option ℚ)
  pressure_bar : List (Option ℚ)
  load_pct : List (Option ℚ)
  throughput : List (Option ℚ)
  vibration : List (Option ℚ)
  humidity : List (Option ℚ)
  riskHist : List (Option ℚ)
deriving DecidableEq

/-- The initial state: all sequences empty (lines 6–15). -/
def HistoryStore.init : HistoryStore := ⟨[], [], [], [], [], [], [], []⟩

/-- The append phase of `tick` (lines 118–130): coerce each channel with
`Number(x ?? 0)` and `pushLimited` everything, `labels` included.
`ts` stands for `new Date().toLocaleTimeString()`. -/
def appendFrame (data : RawFrame) (ts : String) (st : HistoryStore) : HistoryStore :=
  let s := data.sensorsD
  let risk := ingestNum data.risk
  { labels := pushLimited st.labels ts HISTORY_MAX
    temperature_c := pushLimited st.temperature_c (ingestNum s.temperature_c) HISTORY_MAX
    pressure_bar := pushLimited st.pressure_bar (ingestNum s.pressure_bar) HISTORY_MAX
    load_pct := pushLimited st.load_pct (ingestNum s.load_pct) HISTORY_MAX
    throughput := pushLimited st.throughput (ingestNum s.throughput) HISTORY_MAX
    vibration := pushLimited st.vibration (ingestNum s.vibration) HISTORY_MAX
    humidity := pushLimited st.humidity (ingestNum s.humidity) HISTORY_MAX
    riskHist := pushLimited st.riskHist risk HISTORY_MAX }

/-! ### AdvisoryEngine (`recommend`, lines 103–111) -/

/-- The distance-prompt message (line 104). -/
def msgDistance : String := "Show the ArUco marker to enable precise distance monitoring."

/-- The critical auto-stop message (line 105). -/
def msgCritical : String := "CRITICAL — Auto-STOP active. Increase distance and lower load."

/-- The reduce-speed/load warning (line 107). -/
def msgReduce : String := "WARNING — Reduce speed/load to drop temperature/pressure."

/-- The maintain-distance/monitor-vibration warning (line 108). -/
def msgMaintain : String := "WARNING — Maintain distance and monitor vibration levels."

/-- The safe/nominal message (line 110). -/
def msgSafe : String := "SAFE — Conditions nominal. Maintain current settings."

/-- Model of `recommend(s, risk, d)` of charts.js (lines 103–111).  As called from
`tick`, `risk` is the already-coerced number `Number(data.risk ?? 0)`
(possibly NaN), `d` is the raw `data.distance_m`, and `s` is the raw
sensors object, whose fields the comparisons convert with `ToNumber`. -/
def recommend (s : RawSensors) (risk : Option ℚ) (d : JSVal) : String :=
  if d.isNullish then msgDistance
  else if jsGE risk (7 / 10) then msgCritical
  else if jsGE risk (1 / 2) then
    if jsGT s.temperature_c.toNumber 75 || jsGT s.pressure_bar.toNumber 4 then msgReduce
    else msgMaintain
  else msgSafe

/-! ### DOM model (the UI slots the Presenter steps write to) -/

/-- A DOM element, reduced to the parts the code writes: `textContent` and
`classList` (a token list without duplicates; `add` is conditional on
absence).  The transient `style.transform` pulse of lines 147–148 is a
visual effect undone 120 ms later and is not modelled. -/
structure Elem where
  text : String
  classes : List String
deriving DecidableEq

/-- Operation `classList.add c`: appends the token when absent. -/
def addClass (l : List String) (c : String) : List String :=
  if c ∈ l then l else l ++ [c]

/-- Operation `classList.remove c`: removes the token. -/
def removeClass (l : List String) (c : String) : List String :=
  l.filter (fun x => x != c)

/-- Operation `classList.toggle c force`: add when `force` is true, remove otherwise. -/
def toggleClass (l : List String) (c : String) (force : Bool) : List String :=
  if force then addClass l c else removeClass l c

/-- Assignment `el.textContent = t`. -/
def setText (t : String) (e : Elem) : Elem := { e with text := t }

/-- The optional UI slots `tick` writes to.  `none` models
`document.getElementById(...)` returning `null`. -/
structure Dom where
  kpiTemperature : Option Elem
  kpiPressure : Option Elem
  kpiLoad : Option Elem
  kpiThroughput : Option Elem
  kpiVibration : Option Elem
  kpiHumidity : Option Elem
  systemState : Option Elem
  stressBanner : Option Elem
  stressTimer : Option Elem
  recommendation : Option Elem
deriving DecidableEq

/-- Model of `setKPI(id, text)` of charts.js (lines 36–39): write the text when the
slot exists, silently do nothing otherwise. -/
def setKPI (slot : Option Elem) (text : String) : Option Elem :=
  slot.map (setText text)

/-- The `system-state` block of `tick` (lines 142–149): set the text with
the `|| "RUNNING"` fallback, then toggle the two status classes by strict
equality against the raw field. -/
def presentState (v : StrVal) (e : Elem) : Elem :=
  { text := v.orRunning
    classes :=
      toggleClass
        (toggleClass e.classes "status-running" (decide (v = StrVal.str "RUNNING")))
        "status-stopped" (decide (v = StrVal.str "STOPPED")) }

/-- The stress-banner block of `tick` (lines 151–157): both the banner and
the timer slot must exist (`if (banner && timer)`); then an active stress
reveals the banner (`classList.remove "d-none"`) and writes the countdown,
an inactive one hides the banner (`classList.add "d-none"`). -/
def presentStress (stress : RawStress) (banner timer : Option Elem) :
    Option Elem × Option Elem :=
  match banner, timer with
  | some b, some t =>
    if stress.active then
      (some { b with classes := removeClass b.classes "d-none" },
       some { t with text := natStr stress.seconds_left })
    else
      (some { b with classes := addClass b.classes "d-none" }, some t)
  | b, t => (b, t)

/-- One poll tick (lines 114–163).  `r = none` models a tick whose
`fetch`/`r.json()` threw or whose parsed `data` was nullish (so that
`data.sensors` threw): the `catch` block logs and leaves every piece of
state untouched.  All of these throws happen before the first `pushLimited`,
so a failed tick mutates nothing.  `ts` stands for the wall-clock label. -/
def tick (r : Option RawFrame) (ts : String) (st : HistoryStore) (dom : Dom) :
    HistoryStore × Dom :=
  match r with
  | none => (st, dom)
  | some data =>
    let s := data.sensorsD
    let risk := ingestNum data.risk
    let dist := data.distance_m
    let st' := appendFrame data ts st
    let stressPair := presentStress data.stressD dom.stressBanner dom.stressTimer
    let dom' : Dom :=
      { kpiTemperature := setKPI dom.kpiTemperature (fmt s.temperature_c 1)
        kpiPressure := setKPI dom.kpiPressure (fmt s.pressure_bar 2)
        kpiLoad := setKPI dom.kpiLoad (fmt s.load_pct 0)
        kpiThroughput := setKPI dom.kpiThroughput (fmt s.throughput 0)
        kpiVibration := setKPI dom.kpiVibration (fmt s.vibration 2)
        kpiHumidity := setKPI dom.kpiHumidity (fmt s.humidity 0)
        systemState := dom.systemState.map (presentState data.system_state)
        stressBanner := stressPair.1
        stressTimer := stressPair.2
        recommendation := dom.recommendation.map (setText (recommend s risk dist)) }
    (st', dom')

/-- The scheduler: `setInterval(tick, POLL_MS)` firing a sequence of ticks,
each either failed (`none`) or delivering a parsed frame. -/
def runTicks (l : List (Option RawFrame × String)) (x : HistoryStore × Dom) :
    HistoryStore × Dom :=
  l.foldl (fun sd p => tick p.1 p.2 sd.1 sd.2) x

/-! ### Predicates used by the verification -/

/-- All 8 HistoryStore sequences have the same length, bounded by
`HISTORY_MAX`. -/
def storeOk (st : HistoryStore) : Prop :=
  st.temperature_c.length = st.labels.length ∧
  st.pressure_bar.length = st.labels.length ∧
  st.load_pct.length = st.labels.length ∧
  st.throughput.length = st.labels.length ∧
  st.vibration.length = st.labels.length ∧
  st.humidity.length = st.labels.length ∧
  st.riskHist.length = st.labels.length ∧
  st.labels.length ≤ HISTORY_MAX

/-- No NaN (`none`) appears in any numeric HistoryStore sequence. -/
def storeNoNaN (st : HistoryStore) : Prop :=
  none ∉ st.temperature_c ∧ none ∉ st.pressure_bar ∧ none ∉ st.load_pct ∧
  none ∉ st.throughput ∧ none ∉ st.vibration ∧ none ∉ st.humidity ∧
  none ∉ st.riskHist

/-- A field value representable as a numeric JSON scalar: absent, `null`,
or a finite number (rules out `NaN`, which `JSON.parse` cannot produce, and
non-numeric values such as objects). -/
def goodVal : JSVal → Bool
  | .nan => false
  | .obj => false
  | _ => true

/-- All numeric fields of the frame (the six sensor channels and `risk`)
are numeric JSON scalars. -/
def jsonNumericFrame (f : RawFrame) : Bool :=
  goodVal f.risk && goodVal f.sensorsD.temperature_c && goodVal f.sensorsD.pressure_bar &&
  goodVal f.sensorsD.load_pct && goodVal f.sensorsD.throughput &&
  goodVal f.sensorsD.vibration && goodVal f.sensorsD.humidity

/-! ## Helper lemmas -/

theorem pushLimited_eq_drop {α : Type _} (arr : List α) (v : α) (m : ℕ) :
    pushLimited arr v m = (arr ++ [v]).drop (arr.length + 1 - m) := by
  unfold pushLimited
  simp only [List.length_append, List.length_cons, List.length_nil, Nat.zero_add]
  split
  · rfl
  · next h =>
    rw [Nat.sub_eq_zero_of_le (Nat.not_lt.mp h), List.drop_zero]

theorem length_pushLimited {α : Type _} (arr : List α) (v : α) (m : ℕ) :
    (pushLimited arr v m).length = min (arr.length + 1) m := by
  rw [pushLimited_eq_drop, List.length_drop]
  simp only [List.length_append, List.length_cons, List.length_nil, Nat.zero_add]
  omega

theorem foldl_pushLimited {α : Type _} (vs : List α) :
    ∀ arr : List α, arr.length ≤ HISTORY_MAX →
      vs.foldl (fun a v => pushLimited a v HISTORY_MAX) arr =
        (arr ++ vs).drop (arr.length + vs.length - HISTORY_MAX) := by
  induction vs with
  | nil =>
    intro arr h
    simpa using (Nat.sub_eq_zero_of_le h) ▸ rfl
  | cons v vs ih =>
    intro arr h
    rw [List.foldl_cons, pushLimited_eq_drop]
    have hlen : ((arr ++ [v]).drop (arr.length + 1 - HISTORY_MAX)).length ≤ HISTORY_MAX := by
      rw [List.length_drop]
      simp only [List.length_append, List.length_cons, List.length_nil, Nat.zero_add]
      omega
    rw [ih _ hlen]
    have hk : arr.length + 1 - HISTORY_MAX ≤ (arr ++ [v]).length := by
      simp only [List.length_append, List.length_cons, List.length_nil, Nat.zero_add]
      omega
    rw [← List.drop_append_of_le_length hk, List.drop_drop]
    have hassoc : arr ++ [v] ++ vs = arr ++ v :: vs := by simp
    rw [hassoc]
    congr 1
    rw [List.length_drop]
    simp only [List.length_append, List.length_cons, List.length_nil, Nat.zero_add]
    have h30 : HISTORY_MAX = 30 := rfl
    omega

theorem digitCh_mem_digits (n : ℕ) :
    digitCh n ∈ ['0', '1', '2', '3', '4', '5', '6', '7', '8', '9'] := by
  unfold digitCh
  split_ifs <;> simp

theorem digitsAux_zero (f : ℕ) : digitsAux f 0 = [] := by
  cases f <;> simp [digitsAux]

theorem mem_digitsAux_digits :
    ∀ (f n : ℕ) (c : Char), c ∈ digitsAux f n →
      c ∈ ['0', '1', '2', '3', '4', '5', '6', '7', '8', '9'] := by
  intro f
  induction f with
  | zero => intro n c h; simp [digitsAux] at h
  | succ f ih =>
    intro n c h
    by_cases h0 : n = 0
    · simp [digitsAux, h0] at h
    · simp only [digitsAux, h0, if_false] at h
      rcases List.mem_cons.mp h with h | h
      · exact h ▸ digitCh_mem_digits _
      · exact ih _ _ h

theorem length_digitsAux_le :
    ∀ (d f n : ℕ), n < 10 ^ d → (digitsAux f n).length ≤ d := by
  intro d
  induction d with
  | zero =>
    intro f n h
    have : n = 0 := by omega
    simp [this, digitsAux_zero]
  | succ d ih =>
    intro f n h
    cases f with
    | zero => simp [digitsAux]
    | succ f =>
      by_cases h0 : n = 0
      · simp [digitsAux, h0]
      · simp only [digitsAux, h0, if_false, List.length_cons]
        have hdiv : n / 10 < 10 ^ d := by
          rw [Nat.div_lt_iff_lt_mul (by norm_num)]
          calc n < 10 ^ (d + 1) := h
            _ = 10 ^ d * 10 := by ring
        have := ih f (n / 10) hdiv
        omega

theorem mem_natRepr_digits (m : ℕ) (c : Char) (h : c ∈ natRepr m) :
    c ∈ ['0', '1', '2', '3', '4', '5', '6', '7', '8', '9'] := by
  unfold natRepr at h
  split_ifs at h with h0
  · simp at h
    simp [h]
  · exact mem_digitsAux_digits _ _ _ (List.mem_reverse.mp h)

theorem natDigitsRev_ne_nil (m : ℕ) (h0 : m ≠ 0) : natDigitsRev m ≠ [] := by
  unfold natDigitsRev
  cases m with
  | zero => exact absurd rfl h0
  | succ k => simp [digitsAux]

theorem natRepr_cons (m : ℕ) :
    ∃ c cs, natRepr m = c :: cs ∧ c ∈ ['0', '1', '2', '3', '4', '5', '6', '7', '8', '9'] := by
  rcases hq : natRepr m with _ | ⟨c, cs⟩
  · exfalso
    unfold natRepr at hq
    split_ifs at hq with h0
    rw [List.reverse_eq_nil_iff] at hq
    exact natDigitsRev_ne_nil m h0 hq
  · refine ⟨c, cs, rfl, mem_natRepr_digits m c ?_⟩
    rw [hq]
    exact List.mem_cons_self _ _

theorem digit_ne_dot {c : Char}
    (h : c ∈ ['0', '1', '2', '3', '4', '5', '6', '7', '8', '9']) : c ≠ '.' := by
  simp only [List.mem_cons, List.not_mem_nil, or_false] at h
  rcases h with h | h | h | h | h | h | h | h | h | h <;> subst h <;> decide

theorem digit_ne_dash {c : Char}
    (h : c ∈ ['0', '1', '2', '3', '4', '5', '6', '7', '8', '9']) : c ≠ '-' := by
  simp only [List.mem_cons, List.not_mem_nil, or_false] at h
  rcases h with h | h | h | h | h | h | h | h | h | h <;> subst h <;> decide

theorem decCount_nodot (l : List Char) (h : ∀ c ∈ l, c ≠ '.') :
    decCount (String.mk l) = 0 := by
  unfold decCount
  have hdata : (String.mk l).data = l := rfl
  rw [hdata, if_neg (fun hc => h _ hc rfl)]

theorem decCount_core (ipChars frac : List Char) (hfrac : ∀ c ∈ frac, c ≠ '.')
    (neg : Bool) (d : ℕ) (hlen : frac.length = d) :
    decCount (String.mk
      (if neg then '-' :: (ipChars ++ '.' :: frac) else ipChars ++ '.' :: frac)) = d := by
  unfold decCount
  have hfrac' : ∀ c ∈ frac.reverse, (c != '.') = true := by
    intro c hc
    simpa [bne_iff_ne] using hfrac c (List.mem_reverse.mp hc)
  cases neg with
  | false =>
    have hdata : (String.mk (ipChars ++ '.' :: frac)).data = ipChars ++ '.' :: frac := rfl
    simp only [if_false, Bool.false_eq_true, hdata]
    rw [if_pos (by simp)]
    rw [show (ipChars ++ '.' :: frac).reverse = frac.reverse ++ '.' :: ipChars.reverse by
      simp [List.reverse_append]]
    rw [List.takeWhile_append_of_pos hfrac']
    simp [List.takeWhile_cons, hlen]
  | true =>
    have hdata : (String.mk ('-' :: (ipChars ++ '.' :: frac))).data
        = '-' :: (ipChars ++ '.' :: frac) := rfl
    simp only [if_true, hdata]
    rw [if_pos (by simp)]
    rw [show ('-' :: (ipChars ++ '.' :: frac)).reverse
        = frac.reverse ++ '.' :: (ipChars.reverse ++ ['-']) by simp [List.reverse_append]]
    rw [List.takeWhile_append_of_pos hfrac']
    simp [List.takeWhile_cons, hlen]

theorem frac_ne_dot (k fp : ℕ) :
    ∀ c ∈ List.replicate k '0' ++ (natDigitsRev fp).reverse, c ≠ '.' := by
  intro c hc
  rcases List.mem_append.mp hc with h | h
  · rw [List.eq_of_mem_replicate h]; decide
  · exact digit_ne_dot (mem_digitsAux_digits _ _ _ (List.mem_reverse.mp h))

theorem toFixed_shape (q : ℚ) (d : ℕ) :
    ∃ ip fp : ℕ, (natDigitsRev fp).length ≤ d ∧
      toFixed q d = String.mk (if decide (q < 0) = true then
          '-' :: (if d = 0 then natRepr ip else natRepr ip ++ '.' ::
            (List.replicate (d - (natDigitsRev fp).length) '0' ++ (natDigitsRev fp).reverse))
        else (if d = 0 then natRepr ip else natRepr ip ++ '.' ::
            (List.replicate (d - (natDigitsRev fp).length) '0' ++ (natDigitsRev fp).reverse))) := by
  refine ⟨(⌊|q| * (10 : ℚ) ^ d + 1 / 2⌋).toNat / 10 ^ d,
    (⌊|q| * (10 : ℚ) ^ d + 1 / 2⌋).toNat % 10 ^ d, ?_, rfl⟩
  exact length_digitsAux_le d _ _ (Nat.mod_lt _ (by positivity))

theorem decCount_toFixed (q : ℚ) (d : ℕ) : decCount (toFixed q d) = d := by
  obtain ⟨ip, fp, hlen, hq⟩ := toFixed_shape q d
  rw [hq]
  by_cases hd : d = 0
  · subst hd
    simp only [if_pos rfl]
    have hnodot : ∀ (l : List Char), l = natRepr ip ∨ l = '-' :: natRepr ip →
        ∀ c ∈ l, c ≠ '.' := by
      rintro l (rfl | rfl) c hc
      · exact digit_ne_dot (mem_natRepr_digits _ _ hc)
      · rcases List.mem_cons.mp hc with rfl | hc
        · decide
        · exact digit_ne_dot (mem_natRepr_digits _ _ hc)
    cases hneg : decide (q < 0) with
    | false =>
      simp only [Bool.false_eq_true, if_false]
      exact decCount_nodot _ (hnodot _ (Or.inl rfl))
    | true =>
      simp only [if_true]
      exact decCount_nodot _ (hnodot _ (Or.inr rfl))
  · simp only [if_neg hd]
    have hfl : (List.replicate (d - (natDigitsRev fp).length) '0'
        ++ (natDigitsRev fp).reverse).length = d := by
      simp only [List.length_append, List.length_replicate, List.length_reverse]
      omega
    cases hneg : decide (q < 0) with
    | false =>
      simp only [Bool.false_eq_true, if_false]
      exact decCount_core _ _ (frac_ne_dot _ _) false d hfl
    | true =>
      simp only [if_true]
      exact decCount_core _ _ (frac_ne_dot _ _) true d hfl

theorem mk_ne_dashdash (ipChars rest : List Char) (c : Char) (cs : List Char)
    (hip : ipChars = c :: cs) (hc : c ≠ '-') (neg : Bool) :
    String.mk (if neg then '-' :: (ipChars ++ rest) else ipChars ++ rest) ≠ "--" := by
  intro h
  have hdata := congrArg String.data h
  have hdd : String.data "--" = ['-', '-'] := rfl
  cases neg with
  | false =>
    simp only [Bool.false_eq_true, if_false, hdd] at hdata
    rw [hip] at hdata
    simp only [List.cons_append, List.cons.injEq] at hdata
    exact hc hdata.1
  | true =>
    simp only [if_true, hdd] at hdata
    rw [hip] at hdata
    simp only [List.cons_append, List.cons.injEq] at hdata
    exact hc hdata.2.1

theorem toFixed_ne_dashdash (q : ℚ) (d : ℕ) : toFixed q d ≠ "--" := by
  obtain ⟨ip, fp, hlen, hq⟩ := toFixed_shape q d
  rw [hq]
  obtain ⟨c, cs, hcons, hdig⟩ := natRepr_cons ip
  by_cases hd : d = 0
  · subst hd
    simp only [if_pos rfl]
    have : natRepr ip = natRepr ip ++ [] := by simp
    rw [this]
    exact mk_ne_dashdash _ _ c cs hcons (digit_ne_dash hdig) _
  · simp only [if_neg hd]
    exact mk_ne_dashdash _ _ c cs hcons (digit_ne_dash hdig) _

/-! ## Claim theorems -/

/-- C5 counterexample: for a non-numeric, non-nullish value — here a plain
JSON object, reachable since `tick` (line 135) applies `fmt` to the raw
sensor field — `Number.isNaN(v)` is false, so `fmt` does not return the
fallback token; it returns `Number(v).toFixed(d)` where `Number(v)` is NaN,
i.e. the string `"NaN"`, which is not a rendering with `d = 2` decimal
places either.  The claim's "fallback iff null/undefined/not-a-number,
otherwise a `d`-decimal rendering" is therefore false at this value. -/
theorem fmt_obj_not_rendered :
    fmt JSVal.obj 2 = "NaN" ∧ fmt JSVal.obj 2 ≠ "--" ∧
      decCount (fmt JSVal.obj 2) ≠ 2 := by
  refine ⟨rfl, ?_, ?_⟩ <;> decide

/-- C5 amended: `fmt(v, d)` returns the fallback token `"--"` if and only if
`v` is `null`, `undefined`, or the NaN number; for a finite numeric value it
returns the value fixed to `d` decimals — a string with exactly `d` decimal
places; a non-numeric, non-nullish value, however, slips past the
`Number.isNaN` test and is rendered as the string `"NaN"`. -/
theorem fmt_fallback_iff (v : JSVal) (d : ℕ) :
    (fmt v d = "--" ↔ v = JSVal.undef ∨ v = JSVal.null ∨ v = JSVal.nan) ∧
    (∀ q, v = JSVal.num q → fmt v d = toFixed q d ∧ decCount (fmt v d) = d) ∧
    fmt JSVal.obj d = "NaN" := by
  refine ⟨⟨?_, ?_⟩, ?_, rfl⟩
  · intro h
    cases v with
    | undef => exact Or.inl rfl
    | null => exact Or.inr (Or.inl rfl)
    | nan => exact Or.inr (Or.inr rfl)
    | num q => exact absurd h (toFixed_ne_dashdash q d)
    | obj =>
      rw [show fmt JSVal.obj d = "NaN" from rfl] at h
      exact absurd h (by decide)
  · rintro (rfl | rfl | rfl) <;> rfl
  · rintro q rfl
    exact ⟨rfl, decCount_toFixed q d⟩

/-- Witness for C5 at `v = num (11/2)`, `d = 2`. -/
theorem fmt_fallback_iff_witness :
    fmt (JSVal.num (11 / 2)) 2 = toFixed (11 / 2) 2 ∧
      decCount (fmt (JSVal.num (11 / 2)) 2) = 2 :=
  (fmt_fallback_iff (JSVal.num (11 / 2)) 2).2.1 (11 / 2) rfl

/-- C3: after appending more than 30 values to an initially empty sequence
through `pushLimited`, the retained elements are exactly the most recent 30
appended values, in their original chronological order. -/
theorem pushLimited_keeps_last_30 {α : Type _} (vs : List α) (h : 30 < vs.length) :
    vs.foldl (fun a v => pushLimited a v HISTORY_MAX) [] = vs.drop (vs.length - 30) ∧
    (vs.foldl (fun a v => pushLimited a v HISTORY_MAX) []).length = 30 := by
  have hfold := foldl_pushLimited vs [] (by simp [HISTORY_MAX])
  simp only [List.nil_append, List.length_nil, Nat.zero_add, HISTORY_MAX] at hfold ⊢
  refine ⟨hfold, ?_⟩
  rw [hfold, List.length_drop]
  omega

/-- Witness for C3 on the 31-element sequence `0, 1, …, 30`. -/
theorem pushLimited_keeps_last_30_witness :
    (List.range 31).foldl (fun a v => pushLimited a v HISTORY_MAX) []
        = (List.range 31).drop ((List.range 31).length - 30) ∧
      ((List.range 31).foldl (fun a v => pushLimited a v HISTORY_MAX) []).length = 30 :=
  pushLimited_keeps_last_30 (List.range 31) (by simp)

theorem storeOk_append (f : RawFrame) (ts : String) (st : HistoryStore)
    (h : storeOk st) : storeOk (appendFrame f ts st) := by
  obtain ⟨h1, h2, h3, h4, h5, h6, h7, h8⟩ := h
  unfold storeOk appendFrame
  dsimp only
  simp only [length_pushLimited, HISTORY_MAX]
  omega

theorem runTicks_cons (r : Option RawFrame × String)
    (l : List (Option RawFrame × String)) (x : HistoryStore × Dom) :
    runTicks (r :: l) x = runTicks l (tick r.1 r.2 x.1 x.2) := rfl

theorem runTicks_storeOk (l : List (RawFrame × String)) :
    ∀ (st : HistoryStore) (dom : Dom), storeOk st →
      storeOk ((runTicks (l.map fun p => (some p.1, p.2)) (st, dom)).1) := by
  induction l with
  | nil => intro st dom h; exact h
  | cons p l ih =>
    intro st dom h
    rw [List.map_cons, runTicks_cons]
    exact ih _ _ (storeOk_append p.1 p.2 st h)

/-- C2: after any sequence of successful append operations (poll ticks with a
parsed frame), all 8 HistoryStore sequences have identical length, and that
length is at most the capacity `HISTORY_MAX = 30`; since the sequence of
ticks is arbitrary, the invariant holds after each append. -/
theorem history_lengths_aligned (ticks : List (RawFrame × String)) (dom : Dom) :
    storeOk ((runTicks (ticks.map fun p => (some p.1, p.2)) (HistoryStore.init, dom)).1) :=
  runTicks_storeOk ticks HistoryStore.init dom
    (by simp [storeOk, HistoryStore.init, HISTORY_MAX])

/-- C7: a tick whose fetch throws or whose response fails to parse (modelled
by `r = none`: every such throw happens before the first `pushLimited`)
leaves the whole state — all 8 HistoryStore sequences and the DOM — exactly
as it was, and the remaining scheduled ticks run exactly as if the failed
tick had not occurred. -/
theorem tick_failure_preserves_state (ts : String) (st : HistoryStore) (dom : Dom)
    (pre post : List (Option RawFrame × String)) (x : HistoryStore × Dom) :
    tick none ts st dom = (st, dom) ∧
    runTicks (pre ++ (none, ts) :: post) x = runTicks (pre ++ post) x := by
  refine ⟨rfl, ?_⟩
  unfold runTicks
  rw [List.foldl_append, List.foldl_append, List.foldl_cons]
  rfl

/-- C6: whenever `distance` is absent (`undefined` or `null`), `recommend`
returns the distance-prompt message, regardless of the risk and sensor
values — the nullish check is the top-priority rule. -/
theorem recommend_absent_distance (s : RawSensors) (risk : Option ℚ) :
    recommend s risk JSVal.undef = msgDistance ∧
    recommend s risk JSVal.null = msgDistance :=
  ⟨rfl, rfl⟩

/-- C1: for a sensors object with numeric temperature and pressure, a numeric
risk, and a present (non-nullish) distance, `recommend` returns: the critical
message when `risk ≥ 0.7`; the reduce-speed/load warning when
`0.5 ≤ risk < 0.7` and (`temperature_c > 75` or `pressure_bar > 4`); the
maintain-distance warning when `0.5 ≤ risk < 0.7` and neither sensor
condition holds; and the safe message when `risk < 0.5` — boundaries
inclusive at `0.7` and `0.5`, exclusive at `75` and `4.0`. -/
theorem recommend_risk_bands (s : RawSensors) (t p risk : ℚ) (d : JSVal)
    (ht : s.temperature_c = JSVal.num t) (hp : s.pressure_bar = JSVal.num p)
    (hd : d.isNullish = false) :
    (7 / 10 ≤ risk → recommend s (some risk) d = msgCritical) ∧
    (1 / 2 ≤ risk → risk < 7 / 10 → 75 < t ∨ 4 < p →
      recommend s (some risk) d = msgReduce) ∧
    (1 / 2 ≤ risk → risk < 7 / 10 → ¬ 75 < t → ¬ 4 < p →
      recommend s (some risk) d = msgMaintain) ∧
    (risk < 1 / 2 → recommend s (some risk) d = msgSafe) := by
  unfold recommend
  rw [ht, hp, hd]
  simp only [jsGE, jsGT, JSVal.toNumber, Bool.false_eq_true, if_false,
    decide_eq_true_eq, Bool.or_eq_true]
  refine ⟨?_, ?_, ?_, ?_⟩
  · intro h1
    rw [if_pos h1]
  · intro h1 h2 h3
    rw [if_neg (not_le.mpr h2), if_pos h1, if_pos h3]
  · intro h1 h2 h3 h4
    rw [if_neg (not_le.mpr h2), if_pos h1,
      if_neg (by rintro (hh | hh); exacts [h3 hh, h4 hh])]
  · intro h1
    rw [if_neg (not_le.mpr (lt_trans h1 (by norm_num))),
      if_neg (not_le.mpr h1)]

/-- Witness for C1: temperature 80, pressure 1, risk 0.55, distance 1.2 —
the reduce-speed/load branch. -/
theorem recommend_risk_bands_witness :
    recommend ⟨JSVal.num 80, JSVal.num 1, JSVal.undef, JSVal.undef,
        JSVal.undef, JSVal.undef⟩ (some (55 / 100)) (JSVal.num (6 / 5)) = msgReduce :=
  (recommend_risk_bands _ 80 1 (55 / 100) (JSVal.num (6 / 5)) rfl rfl rfl).2.1
    (by norm_num) (by norm_num) (Or.inl (by norm_num))

theorem ingestNum_good (v : JSVal) (h : goodVal v = true) : ingestNum v ≠ none := by
  cases v with
  | undef => simp [ingestNum]
  | null => simp [ingestNum]
  | num q => simp [ingestNum]
  | nan => simp [goodVal] at h
  | obj => simp [goodVal] at h

theorem not_none_mem_pushLimited (arr : List (Option ℚ)) (v : Option ℚ)
    (ha : none ∉ arr) (hv : v ≠ none) : none ∉ pushLimited arr v HISTORY_MAX := by
  intro hmem
  rw [pushLimited_eq_drop] at hmem
  rcases List.mem_append.mp (List.mem_of_mem_drop hmem) with h | h
  · exact ha h
  · exact hv (List.mem_singleton.mp h).symm

/-- C4 counterexample: a frame whose `sensors.temperature_c` is a non-numeric
JSON value (a plain object) is NOT coerced to `0` by
`Number(s.temperature_c ?? 0)`: `??` only replaces nullish values, so
`Number` converts the object to NaN and NaN is stored in the sequence. -/
theorem ingest_obj_stores_nan :
    (appendFrame ⟨some ⟨JSVal.obj, JSVal.num 0, JSVal.num 0, JSVal.num 0,
          JSVal.num 0, JSVal.num 0⟩, JSVal.num 0, JSVal.num 1,
          StrVal.str "RUNNING", none⟩ "10:00:00" HistoryStore.init).temperature_c
        = [none] ∧
      (none : Option ℚ) ≠ some 0 :=
  ⟨rfl, by simp⟩

/-- C4 amended: for every ingested frame whose sensor channels and risk are
numeric JSON scalars (absent, `null`, or a finite number — everything the
documented `/sensor_data` contract allows), each stored value is a number:
missing (`undefined`/`null`) input is coerced to `0`, numeric input is stored
as-is, and NaN is never stored in any sequence.  (A non-numeric field value,
e.g. a JSON object, is instead stored as NaN — see the counterexample.) -/
theorem ingest_numeric_scalars_no_nan (f : RawFrame) (ts : String)
    (st : HistoryStore) (hf : jsonNumericFrame f = true) (hst : storeNoNaN st) :
    storeNoNaN (appendFrame f ts st) ∧
    ingestNum JSVal.undef = some 0 ∧ ingestNum JSVal.null = some 0 ∧
    ∀ q, ingestNum (JSVal.num q) = some q := by
  obtain ⟨m1, m2, m3, m4, m5, m6, m7⟩ := hst
  unfold jsonNumericFrame at hf
  simp only [Bool.and_eq_true] at hf
  obtain ⟨⟨⟨⟨⟨⟨hr, h1⟩, h2⟩, h3⟩, h4⟩, h5⟩, h6⟩ := hf
  refine ⟨?_, rfl, rfl, fun q => rfl⟩
  unfold storeNoNaN appendFrame
  dsimp only
  exact ⟨not_none_mem_pushLimited _ _ m1 (ingestNum_good _ h1),
    not_none_mem_pushLimited _ _ m2 (ingestNum_good _ h2),
    not_none_mem_pushLimited _ _ m3 (ingestNum_good _ h3),
    not_none_mem_pushLimited _ _ m4 (ingestNum_good _ h4),
    not_none_mem_pushLimited _ _ m5 (ingestNum_good _ h5),
    not_none_mem_pushLimited _ _ m6 (ingestNum_good _ h6),
    not_none_mem_pushLimited _ _ m7 (ingestNum_good _ hr)⟩

/-- Witness for the amended C4 on a frame mixing numeric, `null` and absent
fields, appended to the empty store. -/
theorem ingest_numeric_scalars_no_nan_witness :
    storeNoNaN (appendFrame ⟨some ⟨JSVal.num 42, JSVal.null, JSVal.undef,
        JSVal.num 0, JSVal.num 1, JSVal.num 2⟩, JSVal.num 0, JSVal.undef,
        StrVal.undef, none⟩ "10:00:02" HistoryStore.init) :=
  (ingest_numeric_scalars_no_nan _ "10:00:02" HistoryStore.init (by decide)
    (by simp [storeNoNaN, HistoryStore.init])).1

/-- C8: with both the stress banner and the countdown slot present, a frame
with `stress.active = true` reveals the banner (removes `"d-none"`) and sets
the countdown text to the decimal rendering of `seconds_left`; a frame with
`stress.active = false` hides the banner (adds `"d-none"`). -/
theorem tick_stress_banner (data : RawFrame) (ts : String) (st : HistoryStore)
    (dom : Dom) (b t : Elem) (hb : dom.stressBanner = some b)
    (htm : dom.stressTimer = some t) :
    (∀ n, data.stress = some ⟨true, n⟩ →
      (tick (some data) ts st dom).2.stressBanner
          = some ⟨b.text, removeClass b.classes "d-none"⟩ ∧
        "d-none" ∉ removeClass b.classes "d-none" ∧
        (tick (some data) ts st dom).2.stressTimer = some ⟨natStr n, t.classes⟩) ∧
    (∀ n, data.stress = some ⟨false, n⟩ →
      (tick (some data) ts st dom).2.stressBanner
          = some ⟨b.text, addClass b.classes "d-none"⟩ ∧
        "d-none" ∈ addClass b.classes "d-none") := by
  have hban : (tick (some data) ts st dom).2.stressBanner
      = (presentStress data.stressD dom.stressBanner dom.stressTimer).1 := rfl
  have htim : (tick (some data) ts st dom).2.stressTimer
      = (presentStress data.stressD dom.stressBanner dom.stressTimer).2 := rfl
  constructor
  · intro n hn
    have hsd : data.stressD = ⟨true, n⟩ := by simp [RawFrame.stressD, hn]
    rw [hban, htim, hb, htm, hsd]
    exact ⟨rfl, by simp [removeClass, List.mem_filter], rfl⟩
  · intro n hn
    have hsd : data.stressD = ⟨false, n⟩ := by simp [RawFrame.stressD, hn]
    rw [hban, hb, htm, hsd]
    refine ⟨rfl, ?_⟩
    unfold addClass
    split_ifs with hmem
    · exact hmem
    · simp

/-- Witness for C8: `stress.active = true`, `seconds_left = 12` — the
countdown slot receives the text `"12"`. -/
theorem tick_stress_banner_witness :
    (tick (some ⟨none, JSVal.num 0, JSVal.num 1, StrVal.str "RUNNING",
        some ⟨true, 12⟩⟩) "10:00:01" HistoryStore.init
        ⟨none, none, none, none, none, none, none, some ⟨"", ["d-none"]⟩,
          some ⟨"", []⟩, none⟩).2.stressTimer = some ⟨natStr 12, []⟩ ∧
      natStr 12 = "12" :=
  ⟨((tick_stress_banner _ "10:00:01" HistoryStore.init _ ⟨"", ["d-none"]⟩
      ⟨"", []⟩ rfl rfl).1 12 rfl).2.2, by decide⟩

/-- C9 counterexample: removing only the countdown (timer) slot changes what
happens to the banner slot.  With `stress.active = false` and both slots
present the banner is hidden (`"d-none"` added); with the timer slot absent
the joint guard `if (banner && timer)` skips the banner write too, so the
banner stays visible — the banner slot's sub-step is affected by the absence
of a different slot. -/
theorem presenter_timer_absence_affects_banner :
    (tick (some ⟨none, JSVal.num 0, JSVal.num 1, StrVal.str "RUNNING",
        some ⟨false, 0⟩⟩) "t" HistoryStore.init
        ⟨none, none, none, none, none, none, none, some ⟨"", []⟩,
          some ⟨"", []⟩, none⟩).2.stressBanner
      ≠ (tick (some ⟨none, JSVal.num 0, JSVal.num 1, StrVal.str "RUNNING",
        some ⟨false, 0⟩⟩) "t" HistoryStore.init
        ⟨none, none, none, none, none, none, none, some ⟨"", []⟩,
          none, none⟩).2.stressBanner := by
  decide

/-- C9 amended: the Presenter phase factorizes slot-wise — each KPI slot, the
state slot and the recommendation slot are written by a function of the frame
and that slot alone, and an absent slot is a silent no-op that cannot affect
any other slot; the stress banner and countdown slots are the one exception:
they form a single jointly-guarded sub-step (`if (banner && timer)`), written
only when both are present, and the absence of either skips both writes (and
nothing else). -/
theorem presenter_slots_factorized (data : RawFrame) (ts : String)
    (st : HistoryStore) (dom : Dom) :
    ((tick (some data) ts st dom).2.kpiTemperature
        = setKPI dom.kpiTemperature (fmt data.sensorsD.temperature_c 1)) ∧
    ((tick (some data) ts st dom).2.kpiPressure
        = setKPI dom.kpiPressure (fmt data.sensorsD.pressure_bar 2)) ∧
    ((tick (some data) ts st dom).2.kpiLoad
        = setKPI dom.kpiLoad (fmt data.sensorsD.load_pct 0)) ∧
    ((tick (some data) ts st dom).2.kpiThroughput
        = setKPI dom.kpiThroughput (fmt data.sensorsD.throughput 0)) ∧
    ((tick (some data) ts st dom).2.kpiVibration
        = setKPI dom.kpiVibration (fmt data.sensorsD.vibration 2)) ∧
    ((tick (some data) ts st dom).2.kpiHumidity
        = setKPI dom.kpiHumidity (fmt data.sensorsD.humidity 0)) ∧
    ((tick (some data) ts st dom).2.systemState
        = dom.systemState.map (presentState data.system_state)) ∧
    (((tick (some data) ts st dom).2.stressBanner,
        (tick (some data) ts st dom).2.stressTimer)
        = presentStress data.stressD dom.stressBanner dom.stressTimer) ∧
    ((tick (some data) ts st dom).2.recommendation
        = dom.recommendation.map
            (setText (recommend data.sensorsD (ingestNum data.risk)
              data.distance_m))) ∧
    (∀ txt, setKPI none txt = none) ∧
    (∀ v, Option.map (presentState v) (none : Option Elem) = none) ∧
    (∀ stress tl, presentStress stress none tl = (none, tl)) ∧
    (∀ stress bn, presentStress stress bn none = (bn, none)) := by
  refine ⟨rfl, rfl, rfl, rfl, rfl, rfl, rfl, rfl, rfl, fun txt => rfl,
    fun v => rfl, fun stress tl => ?_, fun stress bn => ?_⟩
  · cases tl <;> rfl
  · cases bn <;> rfl

/-- C10: when `system_state` is absent, `null` or the empty string (all
falsy), the state presenter writes the literal text `"RUNNING"` while the
strict-equality class toggles turn both status classes off — the displayed
text and the visual classes disagree. -/
theorem present_state_empty_running (v : StrVal) (e : Elem)
    (h : v = StrVal.undef ∨ v = StrVal.null ∨ v = StrVal.str "") :
    (presentState v e).text = "RUNNING" ∧
    "status-running" ∉ (presentState v e).classes ∧
    "status-stopped" ∉ (presentState v e).classes := by
  have hr : decide (v = StrVal.str "RUNNING") = false := by
    rcases h with rfl | rfl | rfl <;> decide
  have hs : decide (v = StrVal.str "STOPPED") = false := by
    rcases h with rfl | rfl | rfl <;> decide
  have htext : StrVal.orRunning v = "RUNNING" := by
    rcases h with rfl | rfl | rfl <;> rfl
  refine ⟨htext, ?_, ?_⟩
  · show "status-running" ∉ toggleClass (toggleClass e.classes "status-running"
      (decide (v = StrVal.str "RUNNING"))) "status-stopped"
      (decide (v = StrVal.str "STOPPED"))
    rw [hr, hs]
    simp [toggleClass, removeClass, List.mem_filter]
  · show "status-stopped" ∉ toggleClass (toggleClass e.classes "status-running"
      (decide (v = StrVal.str "RUNNING"))) "status-stopped"
      (decide (v = StrVal.str "STOPPED"))
    rw [hr, hs]
    simp [toggleClass, removeClass, List.mem_filter]

/-- Witness for C10 at `system_state = ""` on a slot that previously carried
both status classes. -/
theorem present_state_empty_running_witness :
    (presentState (StrVal.str "") ⟨"x", ["status-running", "status-stopped"]⟩).text
        = "RUNNING" ∧
      "status-running" ∉ (presentState (StrVal.str "")
        ⟨"x", ["status-running", "status-stopped"]⟩).classes ∧
      "status-stopped" ∉ (presentState (StrVal.str "")
        ⟨"x", ["status-running", "status-stopped"]⟩).classes :=
  present_state_empty_running (StrVal.str "") _ (Or.inr (Or.inr rfl))

end CopilotDash
